import Mathlib

/-!
Verification of the CRUD HTTP service in `main.py` / `models.py`
(a FastAPI application over SQLAlchemy models for Users, Posts,
Profiles and Comments).

The handlers are embedded as pure functions over an explicit database
state `DB`: a list of `users` rows, a list of `posts` rows, and the
autoincrement counters for the two primary keys.  A primary-key lookup
(`db.query(M).filter(M.id == x).first()`) becomes `List.find?`; the SQL
effect of `db.delete(row); db.commit()` (DELETE ... WHERE id = x)
becomes a `List.filter`; the in-place mutation committed by
`update_post` / `update_user` (UPDATE ... WHERE id = x) becomes a
`List.map` that rewrites the rows with the matching key.  HTTP results
are an explicit `HttpResponse` value carrying the status code and
either a body or the detail message of an `HTTPException`.
-/

/-- A row of the `users` table (`models.User`): integer primary key `id`
and a unique `username`. -/
structure UserRow where
  id : Int
  username : String
  deriving Repr, DecidableEq

/-- A row of the `posts` table (`models.Post`): integer primary key `id`,
`title`, `content`, and a plain integer `user_id` column (no foreign-key
constraint in the source). -/
structure PostRow where
  id : Int
  title : String
  content : String
  user_id : Int
  deriving Repr, DecidableEq

/-- Request body for POST /posts/ (`PostBase`): all fields required. -/
structure PostBase where
  title : String
  content : String
  user_id : Int
  deriving Repr, DecidableEq

/-- Request body for POST /users/ (`UserBase`): all fields required. -/
structure UserBase where
  username : String
  deriving Repr, DecidableEq

/-- Request body for PUT /posts/{id} (`PostUpdate`): every field is
optional, defaulting to `None`.  Note there is no `user_id` field. -/
structure PostUpdate where
  title : Option String := none
  content : Option String := none
  deriving Repr, DecidableEq

/-- Request body for PUT /users/{id} (`UserUpdate`): optional `username`. -/
structure UserUpdate where
  username : Option String := none
  deriving Repr, DecidableEq

/-- An HTTP response: either a success with a status code and a body, or
an error (`HTTPException`) with a status code and a detail message. -/
inductive HttpResponse (α : Type) where
  | ok (statusCode : Nat) (body : α)
  | err (statusCode : Nat) (detail : String)
  deriving Repr, DecidableEq

/-- The database state: the two tables the handlers touch, plus the
autoincrement counters supplying generated primary keys. -/
structure DB where
  users : List UserRow
  posts : List PostRow
  nextUserId : Int
  nextPostId : Int
  deriving Repr, DecidableEq

/-- `db.query(models.User).filter(models.User.id == user_id).first()`. -/
def findUser (db : DB) (user_id : Int) : Option UserRow :=
  db.users.find? (fun u => u.id == user_id)

/-- `db.query(models.Post).filter(models.Post.id == post_id).first()`. -/
def findPost (db : DB) (post_id : Int) : Option PostRow :=
  db.posts.find? (fun p => p.id == post_id)

/-- `create_post` (POST /posts/, status 201): builds a `models.Post` from
the payload, adds and commits it; `db.refresh` yields the generated id. -/
def create_post (post : PostBase) (db : DB) : HttpResponse PostRow × DB :=
  let row : PostRow :=
    { id := db.nextPostId, title := post.title,
      content := post.content, user_id := post.user_id }
  (.ok 201 row,
    { db with posts := db.posts ++ [row], nextPostId := db.nextPostId + 1 })

/-- `create_user` (POST /users/, status 201): builds a `models.User` from
the payload and commits it.  The `username` column is declared `unique`,
so committing a duplicate raises a storage integrity error, which no
handler catches: it surfaces as an unclassified server error and the row
is not inserted. -/
def create_user (user : UserBase) (db : DB) : HttpResponse UserRow × DB :=
  if db.users.any (fun u => u.username == user.username) then
    (.err 500 "IntegrityError: UNIQUE constraint failed: users.username", db)
  else
    let row : UserRow := { id := db.nextUserId, username := user.username }
    (.ok 201 row,
      { db with users := db.users ++ [row], nextUserId := db.nextUserId + 1 })

/-- `read_user` (GET /users/{user_id}): primary-key lookup; 404 with a
detail message when absent, otherwise 200 with the stored entity. -/
def read_user (user_id : Int) (db : DB) : HttpResponse UserRow :=
  match findUser db user_id with
  | none => .err 404 "사용자를 찾을 수 없음"
  | some u => .ok 200 u

/-- `read_post` (GET /posts/{post_id}): primary-key lookup; 404 with a
detail message when absent, otherwise 200 with the stored entity. -/
def read_post (post_id : Int) (db : DB) : HttpResponse PostRow :=
  match findPost db post_id with
  | none => .err 404 "포스트를 찾을 수 없음"
  | some p => .ok 200 p

/-- The field mutations of `update_post`: `if post_update.title is not
None: post.title = ...` and likewise for `content`. -/
def applyPostUpdate (upd : PostUpdate) (p : PostRow) : PostRow :=
  let p1 := match upd.title with
    | some t => { p with title := t }
    | none => p
  match upd.content with
  | some c => { p1 with content := c }
  | none => p1

/-- The field mutation of `update_user`: `if user_update.username is not
None: user.username = ...`. -/
def applyUserUpdate (upd : UserUpdate) (u : UserRow) : UserRow :=
  match upd.username with
  | some n => { u with username := n }
  | none => u

/-- `update_post` (PUT /posts/{post_id}): 404 when absent; otherwise the
non-`None` payload fields overwrite the stored row, the change is
committed (UPDATE ... WHERE id = post_id), and the updated entity is
returned with status 200. -/
def update_post (post_id : Int) (upd : PostUpdate) (db : DB) :
    HttpResponse PostRow × DB :=
  match findPost db post_id with
  | none => (.err 404 "포스트를 찾을 수 없음", db)
  | some p =>
    (.ok 200 (applyPostUpdate upd p),
      { db with posts :=
          db.posts.map (fun q => if q.id == post_id then applyPostUpdate upd q else q) })

/-- `update_user` (PUT /users/{user_id}): 404 when absent; otherwise the
non-`None` payload field overwrites the stored row and the updated
entity is returned with status 200. -/
def update_user (user_id : Int) (upd : UserUpdate) (db : DB) :
    HttpResponse UserRow × DB :=
  match findUser db user_id with
  | none => (.err 404 "사용자를 찾을 수 없음", db)
  | some u =>
    (.ok 200 (applyUserUpdate upd u),
      { db with users :=
          db.users.map (fun v => if v.id == user_id then applyUserUpdate upd v else v) })

/-- `delete_post` (DELETE /posts/{post_id}, status 204): 404 when absent;
otherwise the row is deleted (DELETE ... WHERE id = post_id) and a
confirmation payload `{"detail": "포스트 삭제됨"}` is returned. -/
def delete_post (post_id : Int) (db : DB) : HttpResponse String × DB :=
  match findPost db post_id with
  | none => (.err 404 "포스트를 찾을 수 없음", db)
  | some _ =>
    (.ok 204 "포스트 삭제됨",
      { db with posts := db.posts.filter (fun p => p.id != post_id) })

/-- `delete_user` (DELETE /users/{user_id}, status 204): 404 when absent;
otherwise the row is deleted (DELETE ... WHERE id = user_id) and a
confirmation payload `{"detail": "사용자 삭제됨"}` is returned. -/
def delete_user (user_id : Int) (db : DB) : HttpResponse String × DB :=
  match findUser db user_id with
  | none => (.err 404 "사용자를 찾을 수 없음", db)
  | some _ =>
    (.ok 204 "사용자 삭제됨",
      { db with users := db.users.filter (fun u => u.id != user_id) })

/-! ## The declarative model layer (`models.py`)

For the claim about `Comment`'s `back_populates` targets we embed the
relationship declarations of `models.py` as data. -/

/-- One `relationship(...)` declaration: the attribute name it is bound
to, the target model, and its `back_populates` argument. -/
structure RelationshipDecl where
  attrName : String
  target : String
  backPopulates : String
  deriving Repr, DecidableEq

/-- One declarative model class: its name, table name, and relationship
declarations. -/
structure ModelDecl where
  modelName : String
  tableName : String
  relationships : List RelationshipDecl
  deriving Repr, DecidableEq

/-- `models.User`: `posts` (1:N to Post) and `profile` (1:1 to Profile). -/
def userModel : ModelDecl :=
  { modelName := "User", tableName := "users",
    relationships :=
      [ { attrName := "posts", target := "Post", backPopulates := "user" },
        { attrName := "profile", target := "Profile", backPopulates := "user" } ] }

/-- `models.Profile`: `user` back-populating `User.profile`. -/
def profileModel : ModelDecl :=
  { modelName := "Profile", tableName := "profiles",
    relationships :=
      [ { attrName := "user", target := "User", backPopulates := "profile" } ] }

/-- `models.Post`: `user` back-populating `User.posts`; no `comments`
relationship is declared. -/
def postModel : ModelDecl :=
  { modelName := "Post", tableName := "posts",
    relationships :=
      [ { attrName := "user", target := "User", backPopulates := "posts" } ] }

/-- `models.Comment`: `post` back-populating `Post.comments` and `user`
back-populating `User.comments`. -/
def commentModel : ModelDecl :=
  { modelName := "Comment", tableName := "comments",
    relationships :=
      [ { attrName := "post", target := "Post", backPopulates := "comments" },
        { attrName := "user", target := "User", backPopulates := "comments" } ] }

/-- All declarative models registered on `Base`. -/
def allModels : List ModelDecl :=
  [userModel, profileModel, postModel, commentModel]

/-- Whether model `m` declares a relationship attribute named `a`. -/
def declaresAttr (m : ModelDecl) (a : String) : Bool :=
  m.relationships.any (fun r => r.attrName == a)

/-- Modelled from the spec: the ORM's mapper configuration (the ORM
library itself is not part of the source tree) resolves every
`back_populates` argument against the target model; it succeeds only if,
for every relationship of every model, the target model declares an
attribute of that name, and otherwise initializing the data model with
these mappings raises an error. -/
def mapperConfigurationSucceeds (ms : List ModelDecl) : Bool :=
  ms.all (fun m => m.relationships.all (fun r =>
    ms.any (fun t => t.modelName == r.target && declaresAttr t r.backPopulates)))

/-! ## Helper lemmas -/

/-- `applyPostUpdate` leaves the primary key unchanged. -/
theorem applyPostUpdate_id (upd : PostUpdate) (p : PostRow) :
    (applyPostUpdate upd p).id = p.id := by
  cases upd with
  | mk t c => cases t <;> cases c <;> rfl

/-- `applyPostUpdate` leaves `user_id` unchanged. -/
theorem applyPostUpdate_user_id (upd : PostUpdate) (p : PostRow) :
    (applyPostUpdate upd p).user_id = p.user_id := by
  cases upd with
  | mk t c => cases t <;> cases c <;> rfl

/-- `title` after an update is the payload title when present, otherwise
the stored title. -/
theorem applyPostUpdate_title (upd : PostUpdate) (p : PostRow) :
    (applyPostUpdate upd p).title = upd.title.getD p.title := by
  cases upd with
  | mk t c => cases t <;> cases c <;> rfl

/-- `content` after an update is the payload content when present,
otherwise the stored content. -/
theorem applyPostUpdate_content (upd : PostUpdate) (p : PostRow) :
    (applyPostUpdate upd p).content = upd.content.getD p.content := by
  cases upd with
  | mk t c => cases t <;> cases c <;> rfl

/-- The empty update payload is the identity on rows. -/
theorem applyPostUpdate_none (p : PostRow) : applyPostUpdate {} p = p := rfl

/-- The empty update payload is the identity on user rows. -/
theorem applyUserUpdate_none (u : UserRow) : applyUserUpdate {} u = u := rfl

/-- A primary-key `find?` over a list whose matching rows were rewritten
by an id-preserving function returns the rewritten first match. -/
theorem find?_map_rewrite {α : Type} (l : List α) (key : α → Int) (k : Int)
    (f : α → α) (hf : ∀ q, key (f q) = key q) :
    (l.map (fun q => if key q == k then f q else q)).find? (fun q => key q == k)
      = (l.find? (fun q => key q == k)).map f := by
  induction l with
  | nil => rfl
  | cons a t ih =>
    by_cases h : key a == k
    · simp only [List.map_cons, if_pos h]
      rw [List.find?_cons_of_pos (p := fun q => key q == k) _ (by simpa [hf] using h),
        List.find?_cons_of_pos (p := fun q => key q == k) _ h, Option.map_some']
    · simp only [List.map_cons, if_neg h]
      rw [List.find?_cons_of_neg (p := fun q => key q == k) _ h,
        List.find?_cons_of_neg (p := fun q => key q == k) _ h, ih]

/-- After filtering out the rows with key `k`, a `find?` for key `k`
finds nothing. -/
theorem find?_filter_key_ne {α : Type} (l : List α) (key : α → Int) (k : Int) :
    (l.filter (fun q => key q != k)).find? (fun q => key q == k) = none := by
  rw [List.find?_eq_none]
  intro x hx
  have hne := (List.mem_filter.mp hx).2
  simpa using hne

/-- If the first segment of an append has no match, `find?` continues in
the second segment. -/
theorem find?_append_of_none {α : Type} (l₁ l₂ : List α) (p : α → Bool)
    (h : ∀ x ∈ l₁, ¬ p x) :
    (l₁ ++ l₂).find? p = l₂.find? p := by
  rw [List.find?_append, List.find?_eq_none.mpr h, Option.none_or]

/-- If no row of the list has key `k`, filtering out key `k` keeps the
list intact. -/
theorem filter_key_ne_of_find?_none {α : Type} (l : List α) (key : α → Int)
    (k : Int) (h : l.find? (fun q => key q == k) = none) :
    l.filter (fun q => key q != k) = l := by
  rw [List.filter_eq_self]
  intro a ha
  have := List.find?_eq_none.mp h a ha
  simpa using this

/-! ## Sample data (used by the witness theorems) -/

/-- A concrete stored user. -/
def sampleUser : UserRow := { id := 1, username := "alice" }

/-- A concrete stored post. -/
def samplePost : PostRow := { id := 1, title := "t", content := "c", user_id := 1 }

/-- A concrete database with one user and one post. -/
def sampleDB : DB :=
  { users := [sampleUser], posts := [samplePost], nextUserId := 2, nextPostId := 2 }

/-! ## Claim theorems -/

/-- C1: For every existing Post and every update payload, PUT
/posts/{id} overwrites exactly the fields that are present (non-null)
in the payload and leaves absent or null fields untouched: the returned
entity (which is also the newly stored row for this id) has the payload
title when one is present and the stored title otherwise, likewise for
content, while `user_id` and `id` keep their stored values. -/
theorem C1_update_post_partial (db : DB) (pid : Int) (upd : PostUpdate) (p : PostRow)
    (h : findPost db pid = some p) :
    (update_post pid upd db).1 = .ok 200 (applyPostUpdate upd p) ∧
    findPost (update_post pid upd db).2 pid = some (applyPostUpdate upd p) ∧
    (applyPostUpdate upd p).title = upd.title.getD p.title ∧
    (applyPostUpdate upd p).content = upd.content.getD p.content ∧
    (applyPostUpdate upd p).user_id = p.user_id ∧
    (applyPostUpdate upd p).id = p.id := by
  have h' : db.posts.find? (fun q => q.id == pid) = some p := h
  refine ⟨by simp [update_post, h], ?_,
    applyPostUpdate_title upd p, applyPostUpdate_content upd p,
    applyPostUpdate_user_id upd p, applyPostUpdate_id upd p⟩
  simp only [update_post, h]
  unfold findPost
  rw [find?_map_rewrite db.posts (fun r => r.id) pid (applyPostUpdate upd)
    (fun q => applyPostUpdate_id upd q), h', Option.map_some']

/-- C1 witness: in the sample database, a payload setting only `title`
updates the title and leaves content, user_id and id at their stored
values. -/
theorem C1_update_post_partial_witness :
    (update_post 1 { title := some "new" } sampleDB).1 =
      .ok 200 (applyPostUpdate { title := some "new" } samplePost) ∧
    findPost (update_post 1 { title := some "new" } sampleDB).2 1 =
      some (applyPostUpdate { title := some "new" } samplePost) ∧
    (applyPostUpdate { title := some "new" } samplePost).title =
      (some "new").getD samplePost.title ∧
    (applyPostUpdate { title := some "new" } samplePost).content =
      (none : Option String).getD samplePost.content ∧
    (applyPostUpdate { title := some "new" } samplePost).user_id = samplePost.user_id ∧
    (applyPostUpdate { title := some "new" } samplePost).id = samplePost.id :=
  C1_update_post_partial sampleDB 1 { title := some "new" } samplePost rfl

/-- C2: GET /users/{id} and GET /posts/{id} return the 404 error with
its descriptive detail message exactly when no row with that primary
key exists, and otherwise return exactly the stored entity with status
200. -/
theorem C2_read_not_found_iff (uid pid : Int) (db : DB) :
    (read_user uid db = .err 404 "사용자를 찾을 수 없음" ↔ findUser db uid = none) ∧
    (∀ u : UserRow, read_user uid db = .ok 200 u ↔ findUser db uid = some u) ∧
    (read_post pid db = .err 404 "포스트를 찾을 수 없음" ↔ findPost db pid = none) ∧
    (∀ p : PostRow, read_post pid db = .ok 200 p ↔ findPost db pid = some p) := by
  refine ⟨?_, ?_, ?_, ?_⟩
  · cases hf : findUser db uid <;> simp [read_user, hf]
  · intro u; cases hf : findUser db uid <;> simp [read_user, hf, eq_comm]
  · cases hf : findPost db pid <;> simp [read_post, hf]
  · intro p; cases hf : findPost db pid <;> simp [read_post, hf, eq_comm]

/-- C9: PUT /posts/{id} never changes any stored Post's `user_id` (the
update schema has no `user_id` field): the id/user_id columns of the
posts table are identical before and after any update request. -/
theorem C9_update_post_user_id_immutable (db : DB) (pid : Int) (upd : PostUpdate) :
    (update_post pid upd db).2.posts.map (fun p => (p.id, p.user_id)) =
      db.posts.map (fun p => (p.id, p.user_id)) := by
  cases hf : findPost db pid with
  | none => simp [update_post, hf]
  | some p =>
    simp only [update_post, hf]
    rw [List.map_map]
    refine List.map_congr_left ?_
    intro q _
    by_cases h : q.id == pid
    · simp [Function.comp, h, applyPostUpdate_id, applyPostUpdate_user_id]
    · simp [Function.comp, h]

/-- C10: DELETE /users/{id} touches only the users table: the posts
table is left exactly as it was (no cascade), and the users table loses
exactly the rows with the given id. -/
theorem C10_delete_user_frame (db : DB) (uid : Int) :
    (delete_user uid db).2.posts = db.posts ∧
    (delete_user uid db).2.users = db.users.filter (fun u => u.id != uid) := by
  cases hf : findUser db uid with
  | none =>
    refine ⟨by simp [delete_user, hf], ?_⟩
    simp only [delete_user, hf]
    exact (filter_key_ne_of_find?_none db.users (fun u => u.id) uid hf).symm
  | some u => exact ⟨by simp [delete_user, hf], by simp [delete_user, hf]⟩

/-- C3: for an existing User and an existing Post, a successful DELETE
on the id followed immediately by a GET on the same id returns the
not-found error. -/
theorem C3_delete_then_get (db : DB) (uid pid : Int) (u : UserRow) (p : PostRow)
    (hu : findUser db uid = some u) (hp : findPost db pid = some p) :
    (delete_user uid db).1 = .ok 204 "사용자 삭제됨" ∧
    read_user uid (delete_user uid db).2 = .err 404 "사용자를 찾을 수 없음" ∧
    (delete_post pid db).1 = .ok 204 "포스트 삭제됨" ∧
    read_post pid (delete_post pid db).2 = .err 404 "포스트를 찾을 수 없음" := by
  refine ⟨by simp [delete_user, hu], ?_, by simp [delete_post, hp], ?_⟩
  · simp only [delete_user, hu]
    have hnone : findUser { db with users := db.users.filter (fun v => v.id != uid) } uid =
        none := find?_filter_key_ne db.users (fun v => v.id) uid
    simp [read_user, hnone]
  · simp only [delete_post, hp]
    have hnone : findPost { db with posts := db.posts.filter (fun q => q.id != pid) } pid =
        none := find?_filter_key_ne db.posts (fun q => q.id) pid
    simp [read_post, hnone]

/-- C3 witness: deleting user 1 and post 1 of the sample database and
then fetching them yields the 404 errors. -/
theorem C3_delete_then_get_witness :
    (delete_user 1 sampleDB).1 = .ok 204 "사용자 삭제됨" ∧
    read_user 1 (delete_user 1 sampleDB).2 = .err 404 "사용자를 찾을 수 없음" ∧
    (delete_post 1 sampleDB).1 = .ok 204 "포스트 삭제됨" ∧
    read_post 1 (delete_post 1 sampleDB).2 = .err 404 "포스트를 찾을 수 없음" :=
  C3_delete_then_get sampleDB 1 1 sampleUser samplePost rfl rfl

/-- C4: under the autoincrement invariant (every stored id is below the
next generated id) and a fresh username, the entity returned by Create
is, when fetched by its generated id, returned field-for-field
identical. -/
theorem C4_create_then_get (db : DB) (pb : PostBase) (ub : UserBase)
    (hpid : ∀ q ∈ db.posts, q.id < db.nextPostId)
    (huid : ∀ v ∈ db.users, v.id < db.nextUserId)
    (hname : ∀ v ∈ db.users, v.username ≠ ub.username) :
    (create_post pb db).1 =
      .ok 201 ⟨db.nextPostId, pb.title, pb.content, pb.user_id⟩ ∧
    read_post db.nextPostId (create_post pb db).2 =
      .ok 200 ⟨db.nextPostId, pb.title, pb.content, pb.user_id⟩ ∧
    (create_user ub db).1 = .ok 201 ⟨db.nextUserId, ub.username⟩ ∧
    read_user db.nextUserId (create_user ub db).2 =
      .ok 200 ⟨db.nextUserId, ub.username⟩ := by
  have hany : db.users.any (fun v => v.username == ub.username) = false := by
    rw [List.any_eq_false]
    intro v hv
    simpa using hname v hv
  have hfp : findPost (create_post pb db).2 db.nextPostId =
      some ⟨db.nextPostId, pb.title, pb.content, pb.user_id⟩ := by
    show (db.posts ++
        [({ id := db.nextPostId, title := pb.title, content := pb.content,
            user_id := pb.user_id } : PostRow)]).find?
      (fun q => q.id == db.nextPostId) = _
    rw [find?_append_of_none]
    · simp
    · intro x hx
      have hlt := hpid x hx
      simp only [beq_iff_eq]
      omega
  have hfu : findUser (create_user ub db).2 db.nextUserId =
      some ⟨db.nextUserId, ub.username⟩ := by
    have : (create_user ub db).2 =
        { db with
          users := db.users ++ [⟨db.nextUserId, ub.username⟩]
          nextUserId := db.nextUserId + 1 } := by
      simp [create_user, hany]
    rw [this]
    show (db.users ++ [({ id := db.nextUserId, username := ub.username } : UserRow)]).find?
      (fun v => v.id == db.nextUserId) = _
    rw [find?_append_of_none]
    · simp
    · intro x hx
      have hlt := huid x hx
      simp only [beq_iff_eq]
      omega
  exact ⟨rfl, by simp [read_post, hfp], by simp [create_user, hany],
    by simp [read_user, hfu]⟩

/-- C4 witness: creating a post and a user in the sample database and
fetching them by the generated id returns the very same entities. -/
theorem C4_create_then_get_witness :
    (create_post ⟨"t2", "c2", 1⟩ sampleDB).1 =
      .ok 201 ⟨sampleDB.nextPostId, "t2", "c2", 1⟩ ∧
    read_post sampleDB.nextPostId (create_post ⟨"t2", "c2", 1⟩ sampleDB).2 =
      .ok 200 ⟨sampleDB.nextPostId, "t2", "c2", 1⟩ ∧
    (create_user ⟨"bob"⟩ sampleDB).1 = .ok 201 ⟨sampleDB.nextUserId, "bob"⟩ ∧
    read_user sampleDB.nextUserId (create_user ⟨"bob"⟩ sampleDB).2 =
      .ok 200 ⟨sampleDB.nextUserId, "bob"⟩ :=
  C4_create_then_get sampleDB ⟨"t2", "c2", 1⟩ ⟨"bob"⟩
    (by decide) (by decide) (by decide)

/-- C5: a PUT whose payload has no fields set is a no-op: it succeeds
with status 200, returns the unchanged entity, and leaves the database
unchanged, for both resources. -/
theorem C5_put_empty_noop (db : DB) (uid pid : Int) (u : UserRow) (p : PostRow)
    (hu : findUser db uid = some u) (hp : findPost db pid = some p) :
    update_post pid {} db = (.ok 200 p, db) ∧
    update_user uid {} db = (.ok 200 u, db) := by
  constructor
  · simp only [update_post, hp, applyPostUpdate_none, ite_self, List.map_id']
  · simp only [update_user, hu, applyUserUpdate_none, ite_self, List.map_id']

/-- C5 witness: the empty update on user 1 and post 1 of the sample
database returns the stored entities and leaves the database as is. -/
theorem C5_put_empty_noop_witness :
    update_post 1 {} sampleDB = (.ok 200 samplePost, sampleDB) ∧
    update_user 1 {} sampleDB = (.ok 200 sampleUser, sampleDB) :=
  C5_put_empty_noop sampleDB 1 1 sampleUser samplePost rfl rfl

/-- C6: creating a User with an already-stored username fails via the
storage unique constraint, leaves the store unchanged, and in
particular the store still holds no two rows with the same username. -/
theorem C6_create_user_duplicate (db : DB) (name : String)
    (hdup : ∃ v ∈ db.users, v.username = name)
    (hnodup : (db.users.map (fun v => v.username)).Nodup) :
    (create_user ⟨name⟩ db).1 =
      .err 500 "IntegrityError: UNIQUE constraint failed: users.username" ∧
    (create_user ⟨name⟩ db).2 = db ∧
    ((create_user ⟨name⟩ db).2.users.map (fun v => v.username)).Nodup := by
  have hany : db.users.any (fun v => v.username == name) = true := by
    rw [List.any_eq_true]
    obtain ⟨v, hv, he⟩ := hdup
    exact ⟨v, hv, by simpa using he⟩
  refine ⟨by simp [create_user, hany], by simp [create_user, hany], ?_⟩
  simpa [create_user, hany] using hnodup

/-- C6 witness: re-creating the username "alice" in the sample database
fails with the constraint error and leaves its single-row users table
(with distinct usernames) unchanged. -/
theorem C6_create_user_duplicate_witness :
    (create_user ⟨"alice"⟩ sampleDB).1 =
      .err 500 "IntegrityError: UNIQUE constraint failed: users.username" ∧
    (create_user ⟨"alice"⟩ sampleDB).2 = sampleDB ∧
    ((create_user ⟨"alice"⟩ sampleDB).2.users.map (fun v => v.username)).Nodup :=
  C6_create_user_duplicate sampleDB "alice"
    ⟨sampleUser, by decide, rfl⟩ (by decide)

/-- C7: DELETE on an existing User or Post removes the row (a lookup by
the same primary key then finds nothing), responds with status 204, and
returns the confirmation detail body. -/
theorem C7_delete_success (db : DB) (uid pid : Int) (u : UserRow) (p : PostRow)
    (hu : findUser db uid = some u) (hp : findPost db pid = some p) :
    (delete_user uid db).1 = .ok 204 "사용자 삭제됨" ∧
    findUser (delete_user uid db).2 uid = none ∧
    (delete_post pid db).1 = .ok 204 "포스트 삭제됨" ∧
    findPost (delete_post pid db).2 pid = none := by
  refine ⟨by simp [delete_user, hu], ?_, by simp [delete_post, hp], ?_⟩
  · simp only [delete_user, hu]
    exact find?_filter_key_ne db.users (fun v => v.id) uid
  · simp only [delete_post, hp]
    exact find?_filter_key_ne db.posts (fun q => q.id) pid

/-- C7 witness: deleting user 1 and post 1 of the sample database
yields status 204 with the confirmation bodies and removes the rows. -/
theorem C7_delete_success_witness :
    (delete_user 1 sampleDB).1 = .ok 204 "사용자 삭제됨" ∧
    findUser (delete_user 1 sampleDB).2 1 = none ∧
    (delete_post 1 sampleDB).1 = .ok 204 "포스트 삭제됨" ∧
    findPost (delete_post 1 sampleDB).2 1 = none :=
  C7_delete_success sampleDB 1 1 sampleUser samplePost rfl rfl

/-- C8: `Comment.post` and `Comment.user` back-populate `Post.comments`
and `User.comments`, but neither `Post` nor `User` declares a
`comments` relationship, so resolving the declared mappings fails:
initializing the data model with the Comment mapping raises an error. -/
theorem C8_comment_mapping_defect :
    declaresAttr postModel "comments" = false ∧
    declaresAttr userModel "comments" = false ∧
    commentModel.relationships.map (fun r => r.backPopulates) =
      ["comments", "comments"] ∧
    mapperConfigurationSucceeds allModels = false :=
  ⟨rfl, rfl, rfl, rfl⟩
